import Mathlib

/-!
Verification of the metal price tracker's alert core.

Shallow embedding of `config.py`, `price_tracker.py`, `notifier.py` and the
orchestrating loop of `main.py`.  Python floats are modelled as rationals
(`ℚ`), JSON payloads as an inductive `Json` type, Python exceptions as an
explicit `Except` result, and the two persisted dictionaries (baseline file
and alert-state file) as explicit state values threaded through the
functions.  Network effects (HTTP fetch, e-mail and SMS delivery) are
modelled as input oracles: the feed's response is an argument, and the
per-threshold outcome of each notification channel is a Boolean-valued
function supplied to the tick.
-/

namespace MetalTracker

/-- A parsed JSON value, the result of `response.json()` / `json.load`. -/
inductive Json where
  | null
  | bool (b : Bool)
  | num (q : ℚ)
  | str (s : String)
  | arr (xs : List Json)
  | obj (fields : List (String × Json))

/-- The Python exceptions that the fetch path can produce. -/
inductive PyExc where
  | keyError
  | indexError
  | typeError
  | attributeError
deriving DecidableEq

/-- Key lookup in a parsed JSON object (Python dict indexing / `.get`). -/
def jLookup : List (String × Json) → String → Option Json
  | [], _ => none
  | (k, v) :: rest, key => if k = key then some v else jLookup rest key

/-- Python truthiness of a JSON value (`if not data.get(...)`). -/
def jsonTruthy : Json → Bool
  | .null => false
  | .bool b => b
  | .num q => decide (q ≠ 0)
  | .str s => decide (s ≠ "")
  | .arr xs => !xs.isEmpty
  | .obj fields => !fields.isEmpty

/-- Python `x[k]` with a string key: dict lookup (`KeyError` when missing),
`TypeError` on any non-dict value. -/
def pySubStr : Json → String → Except PyExc Json
  | .obj fields, k =>
    match jLookup fields k with
    | some v => .ok v
    | none => .error .keyError
  | _, _ => .error .typeError

/-- Python `x[-1]`: last element of a list (`IndexError` when empty), last
character of a string, `KeyError` on a string-keyed dict, `TypeError`
otherwise. -/
def pyLast : Json → Except PyExc Json
  | .arr xs =>
    match xs.getLast? with
    | some v => .ok v
    | none => .error .indexError
  | .str s =>
    match s.data.getLast? with
    | some c => .ok (.str (String.mk [c]))
    | none => .error .indexError
  | .obj _ => .error .keyError
  | _ => .error .typeError

/-- `config.py`: the environment-derived configuration constants that the
alert core reads.  An absent `GOLD_BASELINE_PRICE`/`SILVER_BASELINE_PRICE`
environment variable yields `0` (`float(os.getenv(...) or 0)`). -/
structure Config where
  ALERT_10_PERCENT : Bool
  ALERT_20_PERCENT : Bool
  GOLD_BASELINE_PRICE : ℚ
  SILVER_BASELINE_PRICE : ℚ
  RESEND_API_KEY : String
  EMAIL_TO : String
  PHONE_NUMBER : String

/-- `Config.is_email_configured`. -/
def Config.is_email_configured (cfg : Config) : Bool :=
  !cfg.RESEND_API_KEY.isEmpty && !cfg.EMAIL_TO.isEmpty

/-- `Config.is_sms_configured`. -/
def Config.is_sms_configured (cfg : Config) : Bool :=
  !cfg.PHONE_NUMBER.isEmpty

/-- The in-memory `baseline_prices` dict of `PriceTracker`: per-commodity
reference price plus the `"set_at"` timestamp (stored in the same JSON
document; modelled as a separate field since its key is disjoint from the
commodity keys `"gold"`/`"silver"`). -/
structure BaselinePrices where
  prices : String → Option ℚ
  set_at : Option String

/-- The default baseline document
`{"gold": None, "silver": None, "set_at": None}`: every read of a
commodity key yields `None`. -/
def emptyBaselinePrices : BaselinePrices :=
  ⟨fun _ => none, none⟩

/-- `PriceTracker.set_baseline`: store the price under the metal's key and
record the set time, persisting immediately. -/
def set_baseline (bp : BaselinePrices) (metal : String) (price : ℚ)
    (now : String) : BaselinePrices :=
  ⟨fun m => if m = metal then some price else bp.prices m, some now⟩

/-- `PriceTracker.get_baseline`: a positive environment override shadows the
persisted value; otherwise the stored entry is returned. -/
def get_baseline (cfg : Config) (bp : BaselinePrices) (metal : String) :
    Option ℚ :=
  if metal = "gold" ∧ 0 < cfg.GOLD_BASELINE_PRICE then
    some cfg.GOLD_BASELINE_PRICE
  else if metal = "silver" ∧ 0 < cfg.SILVER_BASELINE_PRICE then
    some cfg.SILVER_BASELINE_PRICE
  else bp.prices metal

/-- `PriceTracker.calculate_drop_percentage`. -/
def calculate_drop_percentage (cfg : Config) (bp : BaselinePrices)
    (metal : String) (current_price : ℚ) : Option ℚ :=
  match get_baseline cfg bp metal with
  | none => none
  | some baseline =>
    if baseline ≤ 0 then none
    else some ((baseline - current_price) / baseline * 100)

/-- `PriceTracker.check_alerts`: the triggered alert levels, 10 before 20. -/
def check_alerts (cfg : Config) (bp : BaselinePrices) (metal : String)
    (current_price : ℚ) : List ℤ :=
  match calculate_drop_percentage cfg bp metal current_price with
  | none => []
  | some drop_percentage =>
    (if cfg.ALERT_10_PERCENT ∧ 10 ≤ drop_percentage then [10] else []) ++
    (if cfg.ALERT_20_PERCENT ∧ 20 ≤ drop_percentage then [20] else [])

/-- `PriceData` (`price_tracker.py`): immutable snapshot of one fetched
observation. -/
structure PriceData where
  metal : String
  product_name : String
  price_with_gst : ℚ
  price_without_gst : ℚ
  buy_price : ℚ
  sell_price : ℚ
  updated_at : String

/-- `PriceData.display_price`: the GST-inclusive price used everywhere. -/
def PriceData.display_price (p : PriceData) : ℚ :=
  p.price_with_gst

/-- One per-threshold entry dict of the alert state
(`{"10": ..., "20": ...}`): threshold key → last-sent timestamp or absent.
Reads of missing keys via `.get` yield `None`, so the dict is observably a
total function into `Option`. -/
def LedgerEntry : Type := String → Option String

/-- The `AlertState.state` dict: metal key → per-threshold entry dict. -/
def LedgerState : Type := String → Option LedgerEntry

/-- A freshly initialised entry `{"10": None, "20": None}`. -/
def freshEntry : LedgerEntry := fun _ => none

/-- The default alert-state document used when the file is absent or
corrupt. -/
def defaultLedger : LedgerState :=
  fun m => if m = "gold" ∨ m = "silver" then some freshEntry else none

/-- The `if metal not in self.state: self.state[metal] = {...}` implicit
initialisation performed by `was_alert_sent` and `mark_alert_sent`. -/
def ensureMetal (s : LedgerState) (metal : String) : LedgerState :=
  match s metal with
  | some _ => s
  | none => fun m => if m = metal then some freshEntry else s m

/-- `AlertState.was_alert_sent`: implicit initialisation (a state mutation)
followed by the read `self.state[metal].get(str(threshold)) is not None`. -/
def was_alert_sent (s : LedgerState) (metal : String) (threshold : ℤ) :
    LedgerState × Bool :=
  let s' := ensureMetal s metal
  (s', (((s' metal).getD freshEntry) (toString threshold)).isSome)

/-- `AlertState.mark_alert_sent`: write the current timestamp under
`str(threshold)` in the metal's entry dict, persisting immediately. -/
def mark_alert_sent (s : LedgerState) (metal : String) (threshold : ℤ)
    (now : String) : LedgerState :=
  let s' := ensureMetal s metal
  let entry := (s' metal).getD freshEntry
  fun m =>
    if m = metal then
      some (fun t => if t = toString threshold then some now else entry t)
    else s' m

/-- `AlertState.reset_alerts`: clear one metal's entry dict, or replace the
whole state with the default document when no metal is given. -/
def reset_alerts (s : LedgerState) (metal : Option String) : LedgerState :=
  match metal with
  | some m => fun k => if k = m then some freshEntry else s k
  | none => defaultLedger

/-- The outcome of a file read attempted by the two `_load_*` functions. -/
inductive FileRead where
  | absent
  | malformed
  | content (j : Json)

/-- `PriceTracker._load_baseline_prices`: parse the baseline file, falling
back to the default document when the file is absent (`FileNotFoundError`)
or corrupt (`json.JSONDecodeError`).  The interpretation of a well-formed
document into the in-memory dict is abstracted as `interp`. -/
def load_baseline_prices (interp : Json → BaselinePrices) :
    FileRead → BaselinePrices
  | .content j => interp j
  | .absent => emptyBaselinePrices
  | .malformed => emptyBaselinePrices

/-- `AlertState._load_state`: same fallback discipline for the alert-state
file. -/
def load_state (interp : Json → LedgerState) : FileRead → LedgerState
  | .content j => interp j
  | .absent => defaultLedger
  | .malformed => defaultLedger

/-- The record `PriceTracker.fetch_current_price` builds from the last
element of the feed's price array.  Field values are kept as raw JSON
values: the Python constructor performs no type validation. -/
structure PriceJ where
  metal : String
  product_name : Json
  price_with_gst : Json
  price_without_gst : Json
  buy_price : Json
  sell_price : Json
  updated_at : Json

/-- The six field accesses `latest["product_name"]`, ...,
`latest["updated_at"]` of `fetch_current_price`, collapsed into one match:
all six subscript the same value, so on a non-dict every access raises
`TypeError` and on a dict each access either succeeds or raises
`KeyError`. -/
def parseLatest (metal : String) (latest : Json) :
    Except PyExc (Option PriceJ) :=
  match latest with
  | .obj f =>
    match jLookup f "product_name", jLookup f "price_with_gst",
        jLookup f "price_without_gst", jLookup f "aura_buy_price",
        jLookup f "aura_sell_price", jLookup f "updated_at" with
    | some pn, some pw, some pwo, some bp, some sp, some ua =>
      .ok (some ⟨metal, pn, pw, pwo, bp, sp, ua⟩)
    | _, _, _, _, _, _ => .error .keyError
  | _ => .error .typeError

/-- The body of `fetch_current_price` after a successful HTTP round trip:
`data.get("success")`/`data.get("data")` raise `AttributeError` on a
non-dict payload; a falsy success flag or price array returns `None`;
otherwise `data["data"][-1]` is parsed into a record. -/
def fetchBody (metal : String) (data : Json) : Except PyExc (Option PriceJ) :=
  match data with
  | .obj fields =>
    if ¬ jsonTruthy ((jLookup fields "success").getD .null) then .ok none
    else if ¬ jsonTruthy ((jLookup fields "data").getD .null) then .ok none
    else
      match jLookup fields "data" with
      | none => .error .keyError
      | some dd =>
        match pyLast dd with
        | .error e => .error e
        | .ok latest => parseLatest metal latest
  | _ => .error .attributeError

/-- The feed's response as seen after `requests.get` + `raise_for_status` +
`response.json()`: either a failure that raises `requests.RequestException`
(network error, HTTP error status, undecodable body) or a parsed JSON
payload. -/
inductive FeedResponse where
  | failure
  | success (body : Json)

/-- `PriceTracker.fetch_current_price`: the `except` clauses catch
`requests.RequestException` (returning `None`) and `KeyError`/`IndexError`
(returning `None`); any other exception propagates to the caller. -/
def fetch_current_price (metal : String) : FeedResponse →
    Except PyExc (Option PriceJ)
  | .failure => .ok none
  | .success data =>
    match fetchBody metal data with
    | .error .keyError => .ok none
    | .error .indexError => .ok none
    | r => r

/-- Whether an `Except` result is a normal return (no escaping
exception). -/
def exceptOk : Except PyExc (Option PriceJ) → Bool
  | .ok _ => true
  | .error _ => false

/-- The payload shapes on which the fetch path raises no uncaught
exception: an object envelope whose `"data"` value, when it is reached
truthy, is either an array ending in an object, an object (dict indexing by
`-1` raises a caught `KeyError`), or falsy. -/
def safeShape : Json → Bool
  | .obj fields =>
    if ¬ jsonTruthy ((jLookup fields "success").getD .null) then true
    else
      match (jLookup fields "data").getD .null with
      | .arr xs =>
        match xs.getLast? with
        | some (.obj _) => true
        | some _ => false
        | none => true
      | .obj _ => true
      | j => !jsonTruthy j
  | _ => false

/-- The result dict of `Notifier.send_price_alert`. -/
structure SendResults where
  email : Bool
  sms : Bool
  skipped : Bool
deriving DecidableEq

/-- `Notifier.send_price_alert`: skip if the ledger already records the
threshold as sent; otherwise attempt each configured channel independently
(`emailOut`/`smsOut` are the delivery outcomes of the attempted network
calls) and mark the ledger when at least one channel succeeded. -/
def send_price_alert (cfg : Config) (emailOut smsOut : Bool)
    (led : LedgerState) (metal : String) (threshold : ℤ) (now : String) :
    LedgerState × SendResults :=
  let w := was_alert_sent led metal threshold
  if w.2 then (w.1, ⟨false, false, true⟩)
  else
    let e := cfg.is_email_configured && emailOut
    let s := cfg.is_sms_configured && smsOut
    if e || s then (mark_alert_sent w.1 metal threshold now, ⟨e, s, false⟩)
    else (w.1, ⟨e, s, false⟩)

/-- The mutable state shared by the coordinator: the tracker's baseline
document and the notifier's alert ledger. -/
structure SysState where
  baselines : BaselinePrices
  ledger : LedgerState

/-- The `for threshold in alerts` loop of `check_prices_and_notify`: each
triggered threshold is dispatched in order; after a non-skipped dispatch
with at least one successful channel the baseline is set to the current
display price and the metal's ledger is reset.  Returns the final state,
the per-threshold dispatch results in order, and the number of times the
rebase branch executed. -/
def runAlerts (cfg : Config) (emailOut smsOut : ℤ → Bool) (now : String)
    (metal : String) (price : ℚ) :
    List ℤ → SysState → SysState × List SendResults × ℕ
  | [], st => (st, [], 0)
  | t :: ts, st =>
    let r := send_price_alert cfg (emailOut t) (smsOut t) st.ledger metal
      t now
    let st2 : SysState :=
      if r.2.skipped then ⟨st.baselines, r.1⟩
      else if r.2.email || r.2.sms then
        ⟨set_baseline st.baselines metal price now,
          reset_alerts r.1 (some metal)⟩
      else ⟨st.baselines, r.1⟩
    let rest := runAlerts cfg emailOut smsOut now metal price ts st2
    (rest.1, r.2 :: rest.2.1,
      (if r.2.skipped then 0 else if r.2.email || r.2.sms then 1 else 0)
        + rest.2.2)

/-- The per-metal body of `check_prices_and_notify`: skip the metal when the
fetch failed or the baseline is falsy (`None` or `0`); otherwise compute the
triggered thresholds once and run the dispatch loop. -/
def tickMetal (cfg : Config) (emailOut smsOut : ℤ → Bool) (now : String)
    (st : SysState) (metal : String) (fetched : Option PriceData) :
    SysState × List SendResults × ℕ :=
  match fetched with
  | none => (st, [], 0)
  | some pd =>
    match get_baseline cfg st.baselines metal with
    | none => (st, [], 0)
    | some b =>
      if b = 0 then (st, [], 0)
      else
        runAlerts cfg emailOut smsOut now metal pd.display_price
          (check_alerts cfg st.baselines metal pd.display_price) st

/-- `check_prices_and_notify`: one tick over both commodities in order. -/
def check_prices_and_notify (cfg : Config)
    (emailOut smsOut : String → ℤ → Bool) (now : String)
    (fetched : String → Option PriceData) (st : SysState) : SysState :=
  (["gold", "silver"].foldl
    (fun s metal =>
      (tickMetal cfg (emailOut metal) (smsOut metal) now s metal
        (fetched metal)).1)
    st)

/-- Modelled from the spec (§4.4): `crossedThresholds(dropPercent,
enabledThresholds)` — the ordered list of enabled thresholds whose value the
drop percentage reaches, empty when the drop percentage is Undefined.  Used
only to compare `check_alerts` against the spec's wording. -/
def specCrossedThresholds (drop : Option ℚ) (en10 en20 : Bool) : List ℤ :=
  match drop with
  | none => []
  | some d =>
    ((if en10 then [(10 : ℤ)] else []) ++ (if en20 then [20] else [])).filter
      (fun t => decide ((t : ℚ) ≤ d))

/-- Whether a dispatch result records a delivery (not skipped and at least
one channel succeeded); in the loop body this is exactly the condition
under which the rebase executes. -/
def delivered (r : SendResults) : Bool :=
  !r.skipped && (r.email || r.sms)

/-- The observable content of a ledger under a metal key: reads of a missing
metal behave like a fresh entry (`was_alert_sent`/`mark_alert_sent`
initialise it implicitly). -/
def entryOf (s : LedgerState) (m : String) : LedgerEntry :=
  (s m).getD freshEntry

/-- Concrete channel oracle: every attempted delivery succeeds. -/
def allOk : ℤ → Bool := fun _ => true

/-- Concrete configuration: both thresholds enabled, e-mail configured, SMS
not configured, no baseline overrides. -/
def cfgBase : Config :=
  ⟨true, true, 0, 0, "rk", "ops@example.com", ""⟩

/-- Concrete configuration: no notification channel configured. -/
def cfgNoChan : Config :=
  ⟨true, true, 0, 0, "", "", ""⟩

/-- Concrete configuration: positive gold baseline override. -/
def cfgOverride : Config :=
  ⟨true, true, 3000, 0, "rk", "ops@example.com", ""⟩

/-- Concrete baseline document: gold baseline 2000. -/
def bpGold2000 : BaselinePrices :=
  ⟨fun m => if m = "gold" then some 2000 else none, none⟩

/-- Concrete coordinator state: gold baseline 2000, default ledger. -/
def stGold2000 : SysState :=
  ⟨bpGold2000, defaultLedger⟩

/-- Concrete fetched gold record with display price 1500. -/
def pdGold1500 : PriceData :=
  ⟨"gold", "Aura Digital Gold 24K", 1500, 1456, 1456, 1420, "t0"⟩

/-- Concrete well-shaped feed payload with one observation. -/
def feedGold : Json :=
  .obj [("success", .bool true),
    ("data", .arr [.obj [("product_name", .str "Aura Digital Gold 24K"),
      ("price_with_gst", .num 1500),
      ("price_without_gst", .num 1456),
      ("aura_buy_price", .num 1456),
      ("aura_sell_price", .num 1420),
      ("updated_at", .str "t0")]])]

theorem ensureMetal_eq_of_some {s : LedgerState} {m : String}
    {e : LedgerEntry} (h : s m = some e) : ensureMetal s m = s := by
  unfold ensureMetal
  rw [h]

theorem entryOf_ensureMetal (s : LedgerState) (m0 m : String) :
    entryOf (ensureMetal s m0) m = entryOf s m := by
  unfold ensureMetal entryOf
  cases h : s m0 with
  | some e => rfl
  | none =>
    by_cases hm : m = m0
    · subst hm
      simp [h]
    · simp [hm]

theorem was_alert_sent_snd (s : LedgerState) (m : String) (t : ℤ) :
    (was_alert_sent s m t).2 = (entryOf s m (toString t)).isSome := by
  show (entryOf (ensureMetal s m) m (toString t)).isSome =
    (entryOf s m (toString t)).isSome
  rw [entryOf_ensureMetal]

theorem was_alert_sent_fst (s : LedgerState) (m : String) (t : ℤ) :
    (was_alert_sent s m t).1 = ensureMetal s m := rfl

/-- Claim C2: `calculate_drop_percentage` returns exactly
`(B - P) / B * 100` when the effective baseline `B` (override-aware
`get_baseline`) is set and positive, and `None` when the baseline is absent
or nonpositive. -/
theorem calculate_drop_percentage_spec (cfg : Config) (bp : BaselinePrices)
    (metal : String) (P : ℚ) :
    (∀ B : ℚ, get_baseline cfg bp metal = some B → 0 < B →
      calculate_drop_percentage cfg bp metal P = some ((B - P) / B * 100)) ∧
    (get_baseline cfg bp metal = none →
      calculate_drop_percentage cfg bp metal P = none) ∧
    (∀ B : ℚ, get_baseline cfg bp metal = some B → B ≤ 0 →
      calculate_drop_percentage cfg bp metal P = none) := by
  refine ⟨?_, ?_, ?_⟩
  · intro B hB hBpos
    unfold calculate_drop_percentage
    rw [hB]
    dsimp only
    rw [if_neg (not_le.mpr hBpos)]
  · intro h
    unfold calculate_drop_percentage
    rw [h]
  · intro B hB hle
    unfold calculate_drop_percentage
    rw [hB]
    dsimp only
    rw [if_pos hle]

/-- Witness for C2 at the spec's scenario: baseline 2000, price 1500 gives
a 25 percent drop. -/
theorem calculate_drop_percentage_witness :
    calculate_drop_percentage cfgBase bpGold2000 "gold" 1500 = some 25 := by
  have h := (calculate_drop_percentage_spec cfgBase bpGold2000 "gold" 1500).1
    2000 (by norm_num +decide [get_baseline, cfgBase, bpGold2000])
    (by norm_num)
  rw [h]
  norm_num

/-- Claim C3: `check_alerts` returns the enabled thresholds reached by the
drop percentage (crossing is `≥`), in ascending configured order, all
simultaneously satisfied thresholds included; and the empty list when the
drop percentage is undefined. -/
theorem check_alerts_spec (cfg : Config) (bp : BaselinePrices)
    (metal : String) (P : ℚ) :
    (calculate_drop_percentage cfg bp metal P = none →
      check_alerts cfg bp metal P = []) ∧
    (∀ d : ℚ, calculate_drop_percentage cfg bp metal P = some d →
      ∀ t : ℤ, t ∈ check_alerts cfg bp metal P ↔
        ((t = 10 ∧ cfg.ALERT_10_PERCENT = true ∧ 10 ≤ d) ∨
         (t = 20 ∧ cfg.ALERT_20_PERCENT = true ∧ 20 ≤ d))) ∧
    List.Sorted (· < ·) (check_alerts cfg bp metal P) ∧
    (∀ d : ℚ, calculate_drop_percentage cfg bp metal P = some d →
      check_alerts cfg bp metal P =
        specCrossedThresholds (some d) cfg.ALERT_10_PERCENT
          cfg.ALERT_20_PERCENT) := by
  refine ⟨?_, ?_, ?_, ?_⟩
  · intro h
    unfold check_alerts
    rw [h]
  · intro d hd t
    unfold check_alerts
    rw [hd]
    by_cases e10 : cfg.ALERT_10_PERCENT <;>
      by_cases e20 : cfg.ALERT_20_PERCENT <;>
      by_cases g10 : (10 : ℚ) ≤ d <;>
      by_cases g20 : (20 : ℚ) ≤ d <;>
      simp [e10, e20, g10, g20]
  · unfold check_alerts
    cases calculate_drop_percentage cfg bp metal P with
    | none => simp
    | some d =>
      by_cases e10 : cfg.ALERT_10_PERCENT <;>
        by_cases e20 : cfg.ALERT_20_PERCENT <;>
        by_cases g10 : (10 : ℚ) ≤ d <;>
        by_cases g20 : (20 : ℚ) ≤ d <;>
        simp [e10, e20, g10, g20]
  · intro d hd
    unfold check_alerts specCrossedThresholds
    rw [hd]
    by_cases e10 : cfg.ALERT_10_PERCENT <;>
      by_cases e20 : cfg.ALERT_20_PERCENT <;>
      by_cases g10 : (10 : ℚ) ≤ d <;>
      by_cases g20 : (20 : ℚ) ≤ d <;>
      simp [e10, e20, g10, g20, List.filter]

/-- Witness for C3: a 25 percent drop with both thresholds enabled yields
both 10 and 20. -/
theorem check_alerts_witness :
    (10 : ℤ) ∈ check_alerts cfgBase bpGold2000 "gold" 1500 ∧
    (20 : ℤ) ∈ check_alerts cfgBase bpGold2000 "gold" 1500 := by
  have hd : calculate_drop_percentage cfgBase bpGold2000 "gold" 1500 =
      some 25 := by
    norm_num +decide [calculate_drop_percentage, get_baseline, cfgBase,
      bpGold2000]
  have h := (check_alerts_spec cfgBase bpGold2000 "gold" 1500).2.1 25 hd
  exact ⟨(h 10).2 (Or.inl ⟨rfl, rfl, by norm_num⟩),
    (h 20).2 (Or.inr ⟨rfl, rfl, by norm_num⟩)⟩

/-- Claim C5: a positive override shadows the persisted baseline on reads,
a nonpositive override leaves reads on the persisted value, and
`set_baseline` writes to the store unconditionally. -/
theorem get_baseline_override_spec (cfg : Config) (bp : BaselinePrices) :
    (0 < cfg.GOLD_BASELINE_PRICE →
      get_baseline cfg bp "gold" = some cfg.GOLD_BASELINE_PRICE) ∧
    (0 < cfg.SILVER_BASELINE_PRICE →
      get_baseline cfg bp "silver" = some cfg.SILVER_BASELINE_PRICE) ∧
    (cfg.GOLD_BASELINE_PRICE ≤ 0 →
      get_baseline cfg bp "gold" = bp.prices "gold") ∧
    (cfg.SILVER_BASELINE_PRICE ≤ 0 →
      get_baseline cfg bp "silver" = bp.prices "silver") ∧
    (∀ metal price now,
      (set_baseline bp metal price now).prices metal = some price) := by
  refine ⟨?_, ?_, ?_, ?_, ?_⟩
  · intro h
    simp +decide [get_baseline, h]
  · intro h
    simp +decide [get_baseline, h]
  · intro h
    simp +decide [get_baseline, h.not_lt]
  · intro h
    simp +decide [get_baseline, h.not_lt]
  · intro metal price now
    simp [set_baseline]

/-- Witness for C5: with a positive gold override of 3000 the read returns
the override although the store holds 2000, and a write still lands in the
store. -/
theorem get_baseline_override_witness :
    get_baseline cfgOverride bpGold2000 "gold" = some 3000 ∧
    (set_baseline bpGold2000 "gold" 1500 "t1").prices "gold" =
      some 1500 := by
  refine ⟨?_, ?_⟩
  · exact (get_baseline_override_spec cfgOverride bpGold2000).1
      (by norm_num [cfgOverride])
  · exact (get_baseline_override_spec cfgOverride bpGold2000).2.2.2.2
      "gold" 1500 "t1"

/-- Claim C9: an absent or corrupt baseline or ledger file loads as the
empty default structure, with every entry absent, instead of failing
startup. -/
theorem load_fallback_spec :
    (∀ interp : Json → BaselinePrices,
      load_baseline_prices interp .absent = emptyBaselinePrices ∧
      load_baseline_prices interp .malformed = emptyBaselinePrices) ∧
    (∀ interp : Json → LedgerState,
      load_state interp .absent = defaultLedger ∧
      load_state interp .malformed = defaultLedger) ∧
    (∀ m : String, emptyBaselinePrices.prices m = none) ∧
    emptyBaselinePrices.set_at = none ∧
    (∀ (m : String) (t : ℤ), (was_alert_sent defaultLedger m t).2 = false) := by
  refine ⟨fun _ => ⟨rfl, rfl⟩, fun _ => ⟨rfl, rfl⟩, fun _ => rfl, rfl, ?_⟩
  intro m t
  rw [was_alert_sent_snd]
  unfold entryOf defaultLedger
  by_cases h : m = "gold" ∨ m = "silver" <;> simp [h, freshEntry]

/-- Claim C10: per-commodity mutations never touch the other commodity's
state: `set_baseline` on one metal leaves the other metal's stored price
unchanged, and `reset_alerts` on one metal leaves the other metal's ledger
entry unchanged. -/
theorem per_commodity_frame_spec (m m' : String)
    (_hm : m = "gold" ∨ m = "silver") (_hm' : m' = "gold" ∨ m' = "silver")
    (hne : m ≠ m') :
    (∀ (bp : BaselinePrices) (price : ℚ) (now : String),
      (set_baseline bp m price now).prices m' = bp.prices m') ∧
    (∀ led : LedgerState, reset_alerts led (some m) m' = led m') := by
  refine ⟨?_, ?_⟩
  · intro bp price now
    simp [set_baseline, Ne.symm hne]
  · intro led
    simp [reset_alerts, Ne.symm hne]

/-- Witness for C10: setting the gold baseline and resetting the gold
ledger leave silver's entries untouched. -/
theorem per_commodity_frame_witness :
    (set_baseline bpGold2000 "gold" 1500 "t1").prices "silver" = none ∧
    reset_alerts defaultLedger (some "gold") "silver" = some freshEntry := by
  have h := per_commodity_frame_spec "gold" "silver" (Or.inl rfl)
    (Or.inr rfl) (by decide)
  refine ⟨(h.1 bpGold2000 1500 "t1").trans ?_, (h.2 defaultLedger).trans ?_⟩
  · simp +decide [bpGold2000]
  · simp +decide [defaultLedger]

theorem reset_alerts_self (led : LedgerState) (m : String) :
    reset_alerts led (some m) m = some freshEntry := by
  simp [reset_alerts]

theorem set_baseline_self (bp : BaselinePrices) (m : String) (p : ℚ)
    (now : String) : (set_baseline bp m p now).prices m = some p := by
  simp [set_baseline]

theorem send_price_alert_of_fresh (cfg : Config) (eo so : Bool)
    {led : LedgerState} {metal : String} (h : led metal = some freshEntry)
    (t : ℤ) (now : String) :
    send_price_alert cfg eo so led metal t now =
      (if (cfg.is_email_configured && eo) || (cfg.is_sms_configured && so)
        then mark_alert_sent led metal t now else led,
       ⟨cfg.is_email_configured && eo, cfg.is_sms_configured && so,
         false⟩) := by
  have hw1 : (was_alert_sent led metal t).1 = led := by
    rw [was_alert_sent_fst, ensureMetal_eq_of_some h]
  have hw2 : (was_alert_sent led metal t).2 = false := by
    rw [was_alert_sent_snd]
    unfold entryOf
    rw [h]
    rfl
  unfold send_price_alert
  simp only [hw1, hw2, Bool.false_eq_true, if_false]
  split <;> rfl

theorem send_price_alert_allfail (cfg : Config) {eo so : Bool}
    (he : (cfg.is_email_configured && eo) = false)
    (hs : (cfg.is_sms_configured && so) = false)
    (led : LedgerState) (metal : String) (t : ℤ) (now : String) :
    send_price_alert cfg eo so led metal t now =
      (ensureMetal led metal,
       ⟨false, false, (was_alert_sent led metal t).2⟩) := by
  unfold send_price_alert
  by_cases hw : (was_alert_sent led metal t).2 = true
  · simp only [hw, if_true, was_alert_sent_fst]
  · have hw' : (was_alert_sent led metal t).2 = false :=
      Bool.not_eq_true _ ▸ hw
    simp only [hw', Bool.false_eq_true, if_false, he, hs, Bool.or_self,
      was_alert_sent_fst]

theorem runAlerts_fresh_invariant (cfg : Config) (eo so : ℤ → Bool)
    (now metal : String) (price : ℚ) (ts : List ℤ) :
    ∀ st : SysState,
      st.baselines.prices metal = some price →
      st.ledger metal = some freshEntry →
      (runAlerts cfg eo so now metal price ts st).1.baselines.prices metal =
          some price ∧
      (runAlerts cfg eo so now metal price ts st).1.ledger metal =
          some freshEntry := by
  induction ts with
  | nil =>
    intro st hb hl
    exact ⟨hb, hl⟩
  | cons t ts ih =>
    intro st hb hl
    have hsend := send_price_alert_of_fresh cfg (eo t) (so t) hl t now
    simp only [runAlerts]
    rw [hsend]
    by_cases hc : ((cfg.is_email_configured && eo t) ||
        (cfg.is_sms_configured && so t)) = true
    · simp only [hc, if_true]
      exact ih _ (set_baseline_self _ _ _ _) (reset_alerts_self _ _)
    · have hc' : ((cfg.is_email_configured && eo t) ||
          (cfg.is_sms_configured && so t)) = false :=
        Bool.not_eq_true _ ▸ hc
      simp only [hc', Bool.false_eq_true, if_false]
      exact ih _ hb hl

theorem runAlerts_count_rebase (cfg : Config) (eo so : ℤ → Bool)
    (now metal : String) (price : ℚ) (ts : List ℤ) :
    ∀ st : SysState,
      1 ≤ (runAlerts cfg eo so now metal price ts st).2.2 →
      (runAlerts cfg eo so now metal price ts st).1.baselines.prices metal =
          some price ∧
      (runAlerts cfg eo so now metal price ts st).1.ledger metal =
          some freshEntry := by
  induction ts with
  | nil =>
    intro st h
    simp [runAlerts] at h
  | cons t ts ih =>
    intro st h
    simp only [runAlerts] at h ⊢
    by_cases hsk :
        (send_price_alert cfg (eo t) (so t) st.ledger metal t now).2.skipped
          = true
    · simp only [hsk, if_true, Nat.zero_add] at h ⊢
      exact ih _ h
    · have hsk' := Bool.not_eq_true _ ▸ hsk
      by_cases hes :
          ((send_price_alert cfg (eo t) (so t) st.ledger metal t
              now).2.email ||
            (send_price_alert cfg (eo t) (so t) st.ledger metal t
              now).2.sms) = true
      · simp only [hsk', Bool.false_eq_true, if_false, hes, if_true]
        exact runAlerts_fresh_invariant cfg eo so now metal price ts _
          (set_baseline_self _ _ _ _) (reset_alerts_self _ _)
      · have hes' := Bool.not_eq_true _ ▸ hes
        simp only [hsk', hes', Bool.false_eq_true, if_false,
          Nat.zero_add] at h ⊢
        exact ih _ h

theorem runAlerts_count_filter (cfg : Config) (eo so : ℤ → Bool)
    (now metal : String) (price : ℚ) (ts : List ℤ) :
    ∀ st : SysState,
      (runAlerts cfg eo so now metal price ts st).2.2 =
        ((runAlerts cfg eo so now metal price ts st).2.1.filter
          delivered).length := by
  induction ts with
  | nil =>
    intro st
    simp [runAlerts]
  | cons t ts ih =>
    intro st
    simp only [runAlerts]
    by_cases hsk :
        (send_price_alert cfg (eo t) (so t) st.ledger metal t now).2.skipped
          = true
    · simp only [hsk, if_true, List.filter_cons, delivered, Bool.not_true,
        Bool.false_and, Bool.and_eq_true, Bool.not_eq_true]
      simp only [Nat.zero_add]
      rw [ih]
      simp [List.filter_cons, delivered, hsk]
    · have hsk' := Bool.not_eq_true _ ▸ hsk
      by_cases hes :
          ((send_price_alert cfg (eo t) (so t) st.ledger metal t
              now).2.email ||
            (send_price_alert cfg (eo t) (so t) st.ledger metal t
              now).2.sms) = true
      · simp only [hsk', Bool.false_eq_true, if_false, hes, if_true]
        rw [ih]
        simp [List.filter_cons, delivered, hsk', hes]
        try omega
      · have hes' := Bool.not_eq_true _ ▸ hes
        simp only [hsk', hes', Bool.false_eq_true, if_false, Nat.zero_add]
        rw [ih]
        simp [List.filter_cons, delivered, hsk', hes']

/-- Claim C4: in a tick where some threshold dispatch delivered (not
skipped, at least one channel succeeded, hence the rebase branch ran),
afterwards no threshold of that commodity is recorded as sent and the
commodity's persisted baseline equals the display price used for the
dispatches of that tick. -/
theorem tick_rebase_postcondition (cfg : Config) (eo so : ℤ → Bool)
    (now : String) (st : SysState) (metal : String) (pd : PriceData)
    (_hmetal : metal = "gold" ∨ metal = "silver")
    (hdeliv : ∃ r ∈ (tickMetal cfg eo so now st metal (some pd)).2.1,
      delivered r = true) :
    (∀ T : ℤ,
      (was_alert_sent (tickMetal cfg eo so now st metal (some pd)).1.ledger
        metal T).2 = false) ∧
    (tickMetal cfg eo so now st metal (some pd)).1.baselines.prices metal =
      some pd.display_price := by
  unfold tickMetal at hdeliv ⊢
  cases hgb : get_baseline cfg st.baselines metal with
  | none =>
    rw [hgb] at hdeliv
    simp at hdeliv
  | some b =>
    rw [hgb] at hdeliv
    dsimp only at hdeliv ⊢
    by_cases hb0 : b = 0
    · rw [if_pos hb0] at hdeliv
      simp at hdeliv
    · rw [if_neg hb0] at hdeliv ⊢
      obtain ⟨r, hr, hdr⟩ := hdeliv
      have hcount : 1 ≤ (runAlerts cfg eo so now metal pd.display_price
          (check_alerts cfg st.baselines metal pd.display_price) st).2.2 := by
        rw [runAlerts_count_filter]
        exact List.length_pos.mpr
          (List.ne_nil_of_mem (List.mem_filter.mpr ⟨hr, hdr⟩))
      obtain ⟨hbl, hld⟩ := runAlerts_count_rebase cfg eo so now metal
        pd.display_price _ st hcount
      refine ⟨?_, hbl⟩
      intro T
      rw [was_alert_sent_snd]
      unfold entryOf
      rw [hld]
      rfl

/-- Claim C7: rebasing clears the whole per-commodity ledger: after
`reset_alerts` on a metal no threshold of that metal reads as sent, and in
any tick in which the rebase branch ran at least once the final ledger has
every threshold of the commodity unsent. -/
theorem rebase_clears_whole_ledger :
    (∀ (led : LedgerState) (m : String) (t : ℤ),
      (was_alert_sent (reset_alerts led (some m)) m t).2 = false) ∧
    (∀ (cfg : Config) (eo so : ℤ → Bool) (now : String) (st : SysState)
        (metal : String) (pd : PriceData),
      metal = "gold" ∨ metal = "silver" →
      1 ≤ (tickMetal cfg eo so now st metal (some pd)).2.2 →
      ∀ t : ℤ,
        (was_alert_sent
          (tickMetal cfg eo so now st metal (some pd)).1.ledger metal t).2 =
          false) := by
  constructor
  · intro led m t
    rw [was_alert_sent_snd]
    unfold entryOf
    rw [reset_alerts_self]
    rfl
  · intro cfg eo so now st metal pd _hmetal hcount
    unfold tickMetal at hcount ⊢
    cases hgb : get_baseline cfg st.baselines metal with
    | none =>
      rw [hgb] at hcount
      simp at hcount
    | some b =>
      rw [hgb] at hcount
      dsimp only at hcount ⊢
      by_cases hb0 : b = 0
      · rw [if_pos hb0] at hcount
        simp at hcount
      · rw [if_neg hb0] at hcount ⊢
        obtain ⟨-, hld⟩ := runAlerts_count_rebase cfg eo so now metal
          pd.display_price _ st hcount
        intro t
        rw [was_alert_sent_snd]
        unfold entryOf
        rw [hld]
        rfl

/-- Witness for C7 at the two-threshold scenario: after the tick the 20
percent entry reads unsent. -/
theorem rebase_clears_whole_ledger_witness :
    (was_alert_sent (tickMetal cfgBase allOk allOk "t1" stGold2000 "gold"
      (some pdGold1500)).1.ledger "gold" 20).2 = false := by
  have hc : 1 ≤ (tickMetal cfgBase allOk allOk "t1" stGold2000 "gold"
      (some pdGold1500)).2.2 := by
    norm_num +decide [tickMetal, runAlerts, send_price_alert,
      was_alert_sent, mark_alert_sent, reset_alerts, ensureMetal,
      check_alerts, calculate_drop_percentage, get_baseline, set_baseline,
      cfgBase, bpGold2000, stGold2000, pdGold1500, PriceData.display_price,
      allOk, Config.is_email_configured, Config.is_sms_configured,
      defaultLedger, freshEntry]
  exact rebase_clears_whole_ledger.2 cfgBase allOk allOk "t1" stGold2000
    "gold" pdGold1500 (Or.inl rfl) hc 20

/-- Witness for C4 at the two-threshold scenario: after the tick the 10
percent entry reads unsent and the stored gold baseline is 1500, the
dispatched display price. -/
theorem tick_rebase_postcondition_witness :
    (was_alert_sent (tickMetal cfgBase allOk allOk "t1" stGold2000 "gold"
      (some pdGold1500)).1.ledger "gold" 10).2 = false ∧
    (tickMetal cfgBase allOk allOk "t1" stGold2000 "gold"
      (some pdGold1500)).1.baselines.prices "gold" = some 1500 := by
  have htr : (tickMetal cfgBase allOk allOk "t1" stGold2000 "gold"
      (some pdGold1500)).2.1 =
      [⟨true, false, false⟩, ⟨true, false, false⟩] := by
    norm_num +decide [tickMetal, runAlerts, send_price_alert,
      was_alert_sent, mark_alert_sent, reset_alerts, ensureMetal,
      check_alerts, calculate_drop_percentage, get_baseline, set_baseline,
      cfgBase, bpGold2000, stGold2000, pdGold1500, PriceData.display_price,
      allOk, Config.is_email_configured, Config.is_sms_configured,
      defaultLedger, freshEntry]
  have h := tick_rebase_postcondition cfgBase allOk allOk "t1" stGold2000
    "gold" pdGold1500 (Or.inl rfl)
    ⟨⟨true, false, false⟩, by rw [htr]; simp, rfl⟩
  exact ⟨h.1 10, h.2⟩

theorem runAlerts_allfail (cfg : Config) (eo so : ℤ → Bool)
    (now metal : String) (price : ℚ)
    (hfail : ∀ t : ℤ, (cfg.is_email_configured && eo t) = false ∧
      (cfg.is_sms_configured && so t) = false) (ts : List ℤ) :
    ∀ st : SysState,
      (runAlerts cfg eo so now metal price ts st).1.baselines =
        st.baselines ∧
      (runAlerts cfg eo so now metal price ts st).2.2 = 0 ∧
      ∀ m : String,
        entryOf (runAlerts cfg eo so now metal price ts st).1.ledger m =
          entryOf st.ledger m := by
  induction ts with
  | nil =>
    intro st
    exact ⟨rfl, rfl, fun _ => rfl⟩
  | cons t ts ih =>
    intro st
    have hsend := send_price_alert_allfail cfg (hfail t).1 (hfail t).2
      st.ledger metal t now
    simp only [runAlerts]
    rw [hsend]
    simp only [Bool.false_eq_true, if_false, Bool.or_self, ite_self,
      Nat.zero_add]
    obtain ⟨ib, in0, im⟩ := ih ⟨st.baselines, ensureMetal st.ledger metal⟩
    exact ⟨ib, in0,
      fun m => (im m).trans (entryOf_ensureMetal st.ledger metal m)⟩

/-- Claim C6: when every configured channel fails (or none is configured)
the tick marks nothing as sent and rebases nothing: the baseline document
is unchanged, the rebase branch never ran, and every ledger read gives the
same answer as before the tick, so the next tick faces the identical
state and retries. -/
theorem all_channels_fail_no_mutation (cfg : Config) (eo so : ℤ → Bool)
    (now : String) (st : SysState) (metal : String) (pd : Option PriceData)
    (_hmetal : metal = "gold" ∨ metal = "silver")
    (hfail : ∀ t : ℤ, (cfg.is_email_configured && eo t) = false ∧
      (cfg.is_sms_configured && so t) = false) :
    (tickMetal cfg eo so now st metal pd).1.baselines = st.baselines ∧
    (tickMetal cfg eo so now st metal pd).2.2 = 0 ∧
    ∀ (m : String) (t : ℤ),
      (was_alert_sent (tickMetal cfg eo so now st metal pd).1.ledger m
        t).2 = (was_alert_sent st.ledger m t).2 := by
  unfold tickMetal
  cases pd with
  | none => exact ⟨rfl, rfl, fun _ _ => rfl⟩
  | some pd =>
    cases hgb : get_baseline cfg st.baselines metal with
    | none => exact ⟨rfl, rfl, fun _ _ => rfl⟩
    | some b =>
      dsimp only
      by_cases hb0 : b = 0
      · rw [if_pos hb0]
        exact ⟨rfl, rfl, fun _ _ => rfl⟩
      · rw [if_neg hb0]
        obtain ⟨ib, in0, im⟩ := runAlerts_allfail cfg eo so now metal
          pd.display_price hfail
          (check_alerts cfg st.baselines metal pd.display_price) st
        refine ⟨ib, in0, fun m t => ?_⟩
        rw [was_alert_sent_snd, was_alert_sent_snd, im m]

/-- Witness for C6: with no channel configured the tick leaves the
baseline document untouched and never rebases. -/
theorem all_channels_fail_witness :
    (tickMetal cfgNoChan allOk allOk "t1" stGold2000 "gold"
      (some pdGold1500)).2.2 = 0 ∧
    (tickMetal cfgNoChan allOk allOk "t1" stGold2000 "gold"
      (some pdGold1500)).1.baselines = stGold2000.baselines := by
  have h := all_channels_fail_no_mutation cfgNoChan allOk allOk "t1"
    stGold2000 "gold" (some pdGold1500) (Or.inl rfl)
    (fun _ => ⟨rfl, rfl⟩)
  exact ⟨h.2.1, h.1⟩

/-- Claim C1 as stated is false on the code: in the spec's own scenario
(baseline 2000, fetched price 1500, both thresholds enabled, e-mail
delivery succeeding) both thresholds are delivered in the tick and the
rebase branch (set baseline + reset ledger) executes twice, once per
delivered threshold, not exactly once for the commodity. -/
theorem rebase_once_per_tick_counterexample :
    (tickMetal cfgBase allOk allOk "t1" stGold2000 "gold"
      (some pdGold1500)).2.1 =
      [⟨true, false, false⟩, ⟨true, false, false⟩] ∧
    (tickMetal cfgBase allOk allOk "t1" stGold2000 "gold"
      (some pdGold1500)).2.2 = 2 := by
  constructor <;>
    norm_num +decide [tickMetal, runAlerts, send_price_alert,
      was_alert_sent, mark_alert_sent, reset_alerts, ensureMetal,
      check_alerts, calculate_drop_percentage, get_baseline, set_baseline,
      cfgBase, bpGold2000, stGold2000, pdGold1500, PriceData.display_price,
      allOk, Config.is_email_configured, Config.is_sms_configured,
      defaultLedger, freshEntry]

/-- Claim C1 amended: the rebase executes exactly once per delivered
threshold of the tick (the rebase count equals the number of delivered
dispatch results), and since every rebase of the tick writes the same
display price and clears the whole per-commodity ledger, whenever at least
one rebase occurred the final state is exactly that of a single rebase. -/
theorem rebase_once_per_delivered_threshold (cfg : Config)
    (eo so : ℤ → Bool) (now : String) (st : SysState) (metal : String)
    (pd : PriceData) (_hmetal : metal = "gold" ∨ metal = "silver") :
    (tickMetal cfg eo so now st metal (some pd)).2.2 =
      ((tickMetal cfg eo so now st metal (some pd)).2.1.filter
        delivered).length ∧
    (1 ≤ (tickMetal cfg eo so now st metal (some pd)).2.2 →
      (tickMetal cfg eo so now st metal (some pd)).1.baselines.prices
          metal = some pd.display_price ∧
      (tickMetal cfg eo so now st metal (some pd)).1.ledger metal =
        some freshEntry) := by
  unfold tickMetal
  cases hgb : get_baseline cfg st.baselines metal with
  | none => exact ⟨rfl, fun h => by simp at h⟩
  | some b =>
    dsimp only
    by_cases hb0 : b = 0
    · rw [if_pos hb0]
      exact ⟨rfl, fun h => by simp at h⟩
    · rw [if_neg hb0]
      exact ⟨runAlerts_count_filter cfg eo so now metal pd.display_price
          _ st,
        fun h => runAlerts_count_rebase cfg eo so now metal
          pd.display_price _ st h⟩

/-- Witness for the amended C1: in the two-delivery scenario the final
gold ledger entry is fresh. -/
theorem rebase_once_per_delivered_threshold_witness :
    (tickMetal cfgBase allOk allOk "t1" stGold2000 "gold"
      (some pdGold1500)).1.ledger "gold" = some freshEntry := by
  have hc : 1 ≤ (tickMetal cfgBase allOk allOk "t1" stGold2000 "gold"
      (some pdGold1500)).2.2 := by
    norm_num +decide [tickMetal, runAlerts, send_price_alert,
      was_alert_sent, mark_alert_sent, reset_alerts, ensureMetal,
      check_alerts, calculate_drop_percentage, get_baseline, set_baseline,
      cfgBase, bpGold2000, stGold2000, pdGold1500, PriceData.display_price,
      allOk, Config.is_email_configured, Config.is_sms_configured,
      defaultLedger, freshEntry]
  exact ((rebase_once_per_delivered_threshold cfgBase allOk allOk "t1"
    stGold2000 "gold" pdGold1500 (Or.inl rfl)).2 hc).2

theorem jsonTruthy_null : jsonTruthy .null = false := rfl

theorem jsonTruthy_bool (b : Bool) : jsonTruthy (.bool b) = b := rfl

theorem jsonTruthy_num (q : ℚ) :
    jsonTruthy (.num q) = decide (q ≠ 0) := rfl

theorem jsonTruthy_str (s : String) :
    jsonTruthy (.str s) = decide (s ≠ "") := rfl

theorem jsonTruthy_arr (xs : List Json) :
    jsonTruthy (.arr xs) = !xs.isEmpty := rfl

theorem jsonTruthy_obj (kvs : List (String × Json)) :
    jsonTruthy (.obj kvs) = !kvs.isEmpty := rfl

theorem parseLatest_obj (metal : String) (f : List (String × Json)) :
    (∃ r, parseLatest metal (.obj f) = .ok r) ∨
    parseLatest metal (.obj f) = .error .keyError := by
  unfold parseLatest
  dsimp only
  cases h1 : jLookup f "product_name" with
  | none => right; rfl
  | some pn =>
    cases h2 : jLookup f "price_with_gst" with
    | none => right; rfl
    | some pw =>
      cases h3 : jLookup f "price_without_gst" with
      | none => right; rfl
      | some pwo =>
        cases h4 : jLookup f "aura_buy_price" with
        | none => right; rfl
        | some bp =>
          cases h5 : jLookup f "aura_sell_price" with
          | none => right; rfl
          | some sp =>
            cases h6 : jLookup f "updated_at" with
            | none => right; rfl
            | some ua => left; exact ⟨_, rfl⟩

theorem fetchBody_safe (metal : String) (d : Json)
    (hd : safeShape d = true) :
    (∃ r, fetchBody metal d = .ok r) ∨
    fetchBody metal d = .error .keyError ∨
    fetchBody metal d = .error .indexError := by
  cases d with
  | null => simp [safeShape] at hd
  | bool b => simp [safeShape] at hd
  | num q => simp [safeShape] at hd
  | str s => simp [safeShape] at hd
  | arr xs => simp [safeShape] at hd
  | obj fields =>
    by_cases hsucc : jsonTruthy ((jLookup fields "success").getD .null)
        = true
    · cases hdata : jLookup fields "data" with
      | none =>
        left
        exact ⟨none, by simp [fetchBody, hsucc, hdata, jsonTruthy_null]⟩
      | some dd =>
        cases dd with
        | null =>
          left
          exact ⟨none, by simp [fetchBody, hsucc, hdata, jsonTruthy_null]⟩
        | bool b =>
          have hb : b = false := by
            simpa [safeShape, hsucc, hdata, jsonTruthy_bool] using hd
          subst hb
          left
          exact ⟨none, by simp [fetchBody, hsucc, hdata, jsonTruthy_bool]⟩
        | num q =>
          have hq : q = 0 := by
            simpa [safeShape, hsucc, hdata, jsonTruthy_num] using hd
          subst hq
          left
          exact ⟨none, by simp [fetchBody, hsucc, hdata, jsonTruthy_num]⟩
        | str s =>
          have hs : s = "" := by
            simpa [safeShape, hsucc, hdata, jsonTruthy_str] using hd
          subst hs
          left
          exact ⟨none, by simp [fetchBody, hsucc, hdata, jsonTruthy_str]⟩
        | arr xs =>
          cases hlast : xs.getLast? with
          | none =>
            have hxs : xs = [] := List.getLast?_eq_none_iff.mp hlast
            subst hxs
            left
            exact ⟨none, by simp [fetchBody, hsucc, hdata, jsonTruthy_arr]⟩
          | some l =>
            have hxs : xs.isEmpty = false := by
              cases xs
              · simp at hlast
              · rfl
            cases l with
            | null => simp [safeShape, hsucc, hdata, hlast] at hd
            | bool c => simp [safeShape, hsucc, hdata, hlast] at hd
            | num q => simp [safeShape, hsucc, hdata, hlast] at hd
            | str s => simp [safeShape, hsucc, hdata, hlast] at hd
            | arr ys => simp [safeShape, hsucc, hdata, hlast] at hd
            | obj f =>
              have hbody : fetchBody metal (.obj fields) =
                  parseLatest metal (.obj f) := by
                simp [fetchBody, hsucc, hdata, jsonTruthy_arr, hxs, pyLast,
                  hlast]
              rw [hbody]
              rcases parseLatest_obj metal f with ⟨r, hr⟩ | hr
              · left
                exact ⟨r, hr⟩
              · right
                left
                exact hr
        | obj kvs =>
          by_cases hk : kvs.isEmpty = true
          · left
            exact ⟨none,
              by simp [fetchBody, hsucc, hdata, jsonTruthy_obj, hk]⟩
          · right
            left
            have hk' : kvs.isEmpty = false := by simpa using hk
            simp [fetchBody, hsucc, hdata, jsonTruthy_obj, hk', pyLast]
    · left
      have hs' : jsonTruthy ((jLookup fields "success").getD .null) =
          false := by simpa using hsucc
      exact ⟨none, by simp [fetchBody, hs']⟩

/-- Claim C8 as stated is false: on a syntactically valid payload whose
top level is not an object (here the JSON array `[]`) the fetch path
raises an uncaught `AttributeError` from `data.get("success")` instead of
returning `None`, so "never raises to its caller" fails. -/
theorem fetch_never_raises_counterexample :
    fetch_current_price "gold" (.success (.arr [])) =
      .error .attributeError := rfl

/-- Claim C8 amended: the fetch returns `None` without raising on network
failure, on a non-success envelope, on an empty or missing price array and
on missing fields of an object-shaped payload (caught
`KeyError`/`IndexError`), and builds its record from the last element of
the price array; but on payloads of unexpected JSON shape (non-object
envelope, truthy non-array non-object `"data"`, or a non-object last
element) a `TypeError`/`AttributeError` escapes to the caller. -/
theorem fetch_current_price_spec :
    (∀ metal : String, fetch_current_price metal .failure = .ok none) ∧
    (∀ (metal : String) (d : Json), safeShape d = true →
      exceptOk (fetch_current_price metal (.success d)) = true) ∧
    (∀ (metal : String) (fields : List (String × Json)) (s : Json)
        (xs : List Json) (f : List (String × Json))
        (pn pw pwo bp sp ua : Json),
      jLookup fields "success" = some s → jsonTruthy s = true →
      jLookup fields "data" = some (.arr xs) →
      xs.getLast? = some (.obj f) →
      jLookup f "product_name" = some pn →
      jLookup f "price_with_gst" = some pw →
      jLookup f "price_without_gst" = some pwo →
      jLookup f "aura_buy_price" = some bp →
      jLookup f "aura_sell_price" = some sp →
      jLookup f "updated_at" = some ua →
      fetch_current_price metal (.success (.obj fields)) =
        .ok (some ⟨metal, pn, pw, pwo, bp, sp, ua⟩)) := by
  refine ⟨fun _ => rfl, ?_, ?_⟩
  · intro metal d hd
    rcases fetchBody_safe metal d hd with ⟨r, hr⟩ | hr | hr <;>
      simp [fetch_current_price, hr, exceptOk]
  · intro metal fields s xs f pn pw pwo bp sp ua hs hst hdata hlast h1 h2
      h3 h4 h5 h6
    have hxs : xs.isEmpty = false := by
      cases xs
      · simp at hlast
      · rfl
    have hbody : fetchBody metal (.obj fields) =
        .ok (some ⟨metal, pn, pw, pwo, bp, sp, ua⟩) := by
      simp [fetchBody, parseLatest, pyLast, jsonTruthy_arr, hs, hst, hdata,
        hlast, hxs, h1, h2, h3, h4, h5, h6]
    simp [fetch_current_price, hbody]

/-- Witness for the amended C8: a well-shaped single-observation payload
parses into the record built from its (only, hence last) element. -/
theorem fetch_current_price_witness :
    fetch_current_price "gold" (.success feedGold) =
      .ok (some ⟨"gold", .str "Aura Digital Gold 24K", .num 1500,
        .num 1456, .num 1456, .num 1420, .str "t0"⟩) := by
  exact fetch_current_price_spec.2.2 "gold" _ (.bool true) _ _ _ _ _ _ _ _
    rfl rfl rfl rfl rfl rfl rfl rfl rfl rfl

end MetalTracker
